import Mathlib

/-!
# Verification of the neuro-lens-flow clinical computation core

Shallow embedding of the pure computation core of the repository:

* the ePWV estimator, risk classifier, confidence classifier and
  recommendation table of `src/components/EpwvCalculator.tsx`;
* the mean-arterial-pressure helpers of `src/components/NewVisit.tsx`
  (`getMeanBP`) and of the database layer (`createVisit`);
* the image validation gates of `src/lib/camera.ts`
  (`uploadImageFromFile`, `validateRetinalImage`);
* the server-side request gate and upstream-error mapping of
  `supabase/functions/analyze-retinal-image/index.ts`.

Modelling conventions, used throughout:

* JavaScript numbers are modelled as exact rationals (`ℚ`).  None of the
  properties below is sensitive to binary floating-point rounding: every
  threshold comparison and every concrete value in the claims is far from
  a representation boundary.
* `Number.prototype.toFixed(1)` (followed, where the code does it, by
  `parseFloat`) is modelled as exact rounding to one decimal, `roundTo1`.
* A JavaScript value that may be `NaN` (a failed `parseFloat`/`parseInt`)
  or absent is modelled as an `Option ℚ` with `none` for the NaN/absent
  case.  JS truthiness of a number is: `0` and `NaN` are falsy, every
  other number — negative numbers included — is truthy.
* TypeScript string-literal unions ("Low" | "Medium" | "High", …) are kept
  as `String`s, and `switch`/`if` chains over them are kept as `if` chains,
  default branch included.
* Effects (decoding an image, the single upstream HTTP call) are modelled
  by passing the outcome of the effect as an explicit argument and returning
  the reaction of the handler as a value of an explicit outcome type.
-/

namespace NeuroLens

/-- Rounding to one decimal place: the exact-arithmetic model of
`x.toFixed(1)` (re-parsed to a number where the code does so). -/
def roundTo1 (q : ℚ) : ℚ := ((round (10 * q) : ℤ) : ℚ) / 10

/-! ## `EpwvCalculator.tsx` -/

/-- Model of `calculateEpwv` (EpwvCalculator.tsx, lines 24–34): the ePWV
regression polynomial over age and mean blood pressure, written with the
literal constant products of the source, clamped below at 0 by `Math.max(0, epwv)`. -/
def calculateEpwv (age mbp : ℚ) : ℚ :=
  let epwv : ℚ := 0.587
    - (0.402 * age)
    + (4.560 * 0.001 * (age * age))
    - (2.621 * 0.00001 * (age * age) * mbp)
    + (3.176 * 0.001 * age * mbp)
    - (1.832 * 0.01 * mbp)
  max 0 epwv

/-- Model of `getRiskCategory` (EpwvCalculator.tsx, lines 36–41).  The source takes
an `age` parameter but never reads it. -/
def getRiskCategory (epwv age : ℚ) : String :=
  if epwv < 8 then "Low"
  else if epwv < 12 then "Medium"
  else "High"

/-- Model of `getConfidence` (EpwvCalculator.tsx, lines 43–48). -/
def getConfidence (age mbp : ℚ) : String :=
  if age < 18 ∨ age > 90 ∨ mbp < 60 ∨ mbp > 120 then "Low"
  else if age < 25 ∨ age > 80 ∨ mbp < 70 ∨ mbp > 110 then "Moderate"
  else "High"

/-- Model of `getRecommendations` (EpwvCalculator.tsx, lines 63–88): the fixed
recommendation table, a `switch` over the risk-category string with a
default branch returning the empty list. -/
def getRecommendations (riskCategory : String) : List String :=
  if riskCategory = "Low" then
    ["Continue regular health screenings",
     "Maintain healthy lifestyle habits",
     "Monitor blood pressure regularly"]
  else if riskCategory = "Medium" then
    ["Lifestyle modifications recommended",
     "Consider dietary consultation",
     "Increase physical activity",
     "Follow-up in 6 months"]
  else if riskCategory = "High" then
    ["Clinical evaluation recommended",
     "Comprehensive cardiovascular assessment",
     "Consider specialist referral",
     "Immediate lifestyle interventions"]
  else []

/-! ## `NewVisit.tsx` and the database layer -/

/-- Model of `getMeanBP` (NewVisit.tsx, lines 44–51).  The two form fields are
modelled by their `parseFloat` results: `none` is an absent/non-numeric
field (`parseFloat` gives `NaN`), `some q` a field parsing to `q`.  The
guard `if (sys && dia)` is JS truthiness on numbers: it fails exactly when
a value is `NaN` or `0`; negative numbers pass it.  The result `none`
models the `null` return of the source. -/
def getMeanBP (systolic diastolic : Option ℚ) : Option ℚ :=
  match systolic, diastolic with
  | some sys, some dia =>
      if sys ≠ 0 ∧ dia ≠ 0 then some (roundTo1 ((sys + 2 * dia) / 3)) else none
  | _, _ => none

/-- The `mean_bp` column computed inside `createVisit` (database layer,
lines 120–140): `visitData.systolic && visitData.diastolic ?
parseFloat(((systolic + 2*diastolic)/3).toFixed(1)) : null`, with the same
truthiness guard as `getMeanBP`. -/
def createVisitMeanBp (systolic diastolic : Option ℚ) : Option ℚ :=
  match systolic, diastolic with
  | some sys, some dia =>
      if sys ≠ 0 ∧ dia ≠ 0 then some (roundTo1 ((sys + 2 * dia) / 3)) else none
  | _, _ => none

/-! ## `camera.ts` -/

/-- The outcome of a browser `File` object as `uploadImageFromFile` sees it:
its declared MIME type and its size in bytes. -/
structure UploadFile where
  mimeType : String
  size : ℕ
  deriving DecidableEq, Repr

/-- What `uploadImageFromFile` does with a file before (or instead of) any
image decoding: `rejected msg` models `reject(new Error(msg))` taken at one
of the two early guards, `accepted` models reaching the `FileReader` stage
(after which the caller may decode the image for dimensions). -/
inductive UploadOutcome
  | rejected (message : String)
  | accepted
  deriving DecidableEq, Repr

/-- The `validTypes` list of `uploadImageFromFile` (camera.ts, line 196). -/
def validTypes : List String := ["image/jpeg", "image/png", "image/jpg"]

/-- The guard stage of `uploadImageFromFile` (camera.ts, lines 194–227):
format check first, then the 10 MB size cap, and only past both guards is
the file read (and only then can anything decode its dimensions). -/
def uploadImageFromFile (f : UploadFile) : UploadOutcome :=
  if ¬ (f.mimeType ∈ validTypes) then
    .rejected "Invalid file type. Please upload JPEG or PNG images."
  else if f.size > 10 * 1024 * 1024 then
    .rejected "File too large. Maximum size is 10MB."
  else .accepted

/-- The outcome of the browser decoding an image (`new Image()`): `onload`
fires with the decoded pixel dimensions, or `onerror` fires. -/
inductive DecodeOutcome
  | decoded (width height : ℕ)
  | failed
  deriving DecidableEq, Repr

/-- The result record of `validateRetinalImage`:
`{isValid, reason?, dimensions?}`. -/
structure ValidationResult where
  isValid : Bool
  reason : Option String
  dimensions : Option (ℕ × ℕ)
  deriving DecidableEq, Repr

/-- Model of `validateRetinalImage` (camera.ts, lines 232–277), a function of the
decode outcome: minimum-size check first (512px), then maximum-size check
(4096px), each rejection carrying the decoded dimensions; a decode failure
resolves with the distinct corrupted-file reason and no dimensions. -/
def validateRetinalImage (d : DecodeOutcome) : ValidationResult :=
  match d with
  | .decoded w h =>
      if w < 512 ∨ h < 512 then
        ⟨false, some "Image too small. Minimum size is 512x512px", some (w, h)⟩
      else if w > 4096 ∨ h > 4096 then
        ⟨false, some "Image too large. Maximum size is 4096x4096px", some (w, h)⟩
      else ⟨true, none, some (w, h)⟩
  | .failed => ⟨false, some "Failed to load image. File may be corrupted.", none⟩

/-! ## `supabase/functions/analyze-retinal-image/index.ts` -/

/-- Whether the first list of characters starts the second: the meaning of
an anchored regex or `startsWith` test over the character data of a string. -/
def isPrefixOfChars : List Char → List Char → Bool
  | [], _ => true
  | _ :: _, [] => false
  | c :: cs, d :: ds => c = d && isPrefixOfChars cs ds

/-- Model of `validateImageData` (index.ts, lines 8–11): the anchored regex
`^data:image\/(jpeg|jpg|png);base64,` tests whether the string starts with
one of the three data-URI prefixes. -/
def validateImageData (s : String) : Bool :=
  isPrefixOfChars "data:image/jpeg;base64,".data s.data ||
  isPrefixOfChars "data:image/jpg;base64,".data s.data ||
  isPrefixOfChars "data:image/png;base64,".data s.data

/-- What the serve handler does before any outbound call: reply early with
an error status and message, or go on to call the AI gateway. -/
inductive ServePhase
  | earlyReply (status : ℕ) (message : String)
  | callGateway
  deriving DecidableEq, Repr

/-- The pre-gateway phase of the serve handler (index.ts, lines 18–31): a
missing `LOVABLE_API_KEY` throws (caught by the outer handler as a 500);
then an `imageData` failing `validateImageData` is answered 400 with the
invalid-format error; only otherwise does the outbound fetch happen. -/
def serveGate (keyConfigured : Bool) (imageData : String) : ServePhase :=
  if ¬ keyConfigured then
    .earlyReply 500 "LOVABLE_API_KEY is not configured"
  else if ¬ validateImageData imageData then
    .earlyReply 400 "Invalid image format. Please provide a valid JPEG or PNG image."
  else .callGateway

/-- Meaning of `Response.ok` for the upstream fetch: status in the 2xx range. -/
def responseOk (status : ℕ) : Prop := 200 ≤ status ∧ status < 300

instance (status : ℕ) : Decidable (responseOk status) := by
  unfold responseOk; infer_instance

/-- The reaction of the handler to the single upstream response. -/
inductive AnalysisOutcome
  | errorReply (status : ℕ) (message : String)
  | success
  deriving DecidableEq, Repr

/-- The post-fetch phase of the serve handler (index.ts, lines 140–168),
as a function of the one upstream response it receives (its HTTP status,
and whether its body carries a structured tool call).  A non-ok response is
mapped by status: 429 and 402 are forwarded with their dedicated messages,
anything else becomes the generic 500 gateway error.  An ok response
without a tool call throws "No tool call returned from AI", which the outer
catch turns into a 500 reply with that message. -/
def handleGatewayResponse (status : ℕ) (hasToolCall : Bool) : AnalysisOutcome :=
  if ¬ responseOk status then
    if status = 429 then
      .errorReply 429 "Rate limits exceeded, please try again later."
    else if status = 402 then
      .errorReply 402 "Payment required, please add funds to your Lovable AI workspace."
    else .errorReply 500 "AI gateway error"
  else if hasToolCall then .success
  else .errorReply 500 "No tool call returned from AI"

/-! ## Shared helper lemmas -/

lemma getRiskCategory_eq_low_iff (e a : ℚ) : getRiskCategory e a = "Low" ↔ e < 8 := by
  unfold getRiskCategory
  split_ifs with h1 h2
  · exact iff_of_true rfl h1
  · exact iff_of_false (by decide) h1
  · exact iff_of_false (by decide) h1

lemma getRiskCategory_eq_medium_iff (e a : ℚ) :
    getRiskCategory e a = "Medium" ↔ 8 ≤ e ∧ e < 12 := by
  unfold getRiskCategory
  split_ifs with h1 h2
  · exact iff_of_false (by decide) (by intro hc; linarith [hc.1])
  · exact iff_of_true rfl ⟨by linarith, h2⟩
  · exact iff_of_false (by decide) (by intro hc; exact h2 hc.2)

lemma getRiskCategory_eq_high_iff (e a : ℚ) : getRiskCategory e a = "High" ↔ 12 ≤ e := by
  unfold getRiskCategory
  split_ifs with h1 h2
  · exact iff_of_false (by decide) (by intro hc; linarith)
  · exact iff_of_false (by decide) (by intro hc; linarith)
  · exact iff_of_true rfl (by linarith)

lemma getConfidence_eq_low_iff (a m : ℚ) :
    getConfidence a m = "Low" ↔ (a < 18 ∨ a > 90 ∨ m < 60 ∨ m > 120) := by
  unfold getConfidence
  split_ifs with h1 h2
  · exact iff_of_true rfl h1
  · exact iff_of_false (by decide) h1
  · exact iff_of_false (by decide) h1

lemma getConfidence_eq_high_iff (a m : ℚ) :
    getConfidence a m = "High" ↔ (25 ≤ a ∧ a ≤ 80 ∧ 70 ≤ m ∧ m ≤ 110) := by
  unfold getConfidence
  split_ifs with h1 h2
  · refine iff_of_false (by decide) ?_
    rintro ⟨c1, c2, c3, c4⟩
    rcases h1 with h | h | h | h <;> linarith
  · refine iff_of_false (by decide) ?_
    rintro ⟨c1, c2, c3, c4⟩
    rcases h2 with h | h | h | h <;> linarith
  · push_neg at h2
    exact iff_of_true rfl ⟨h2.1, h2.2.1, h2.2.2.1, h2.2.2.2⟩

lemma getConfidence_eq_moderate_iff (a m : ℚ) :
    getConfidence a m = "Moderate"
      ↔ ((18 ≤ a ∧ a ≤ 90 ∧ 60 ≤ m ∧ m ≤ 120)
          ∧ ¬ (25 ≤ a ∧ a ≤ 80 ∧ 70 ≤ m ∧ m ≤ 110)) := by
  unfold getConfidence
  split_ifs with h1 h2
  · refine iff_of_false (by decide) ?_
    rintro ⟨⟨c1, c2, c3, c4⟩, -⟩
    rcases h1 with h | h | h | h <;> linarith
  · push_neg at h1
    refine iff_of_true rfl ⟨⟨h1.1, h1.2.1, h1.2.2.1, h1.2.2.2⟩, ?_⟩
    rintro ⟨c1, c2, c3, c4⟩
    rcases h2 with h | h | h | h <;> linarith
  · push_neg at h2
    refine iff_of_false (by decide) ?_
    rintro ⟨-, hc⟩
    exact hc ⟨h2.1, h2.2.1, h2.2.2.1, h2.2.2.2⟩

/-! ## Claims -/

/-- C1: for every age > 0 and MAP > 0, the ePWV estimator returns exactly
`max 0` of the polynomial `0.587 - 0.402*age + 0.00456*age² -
0.00002621*age²*MAP + 0.003176*age*MAP - 0.01832*MAP` with these exact
coefficients, so a negative polynomial value (for example at age 1,
MAP 30) yields 0. -/
theorem calculateEpwv_formula (age mbp : ℚ) (hage : 0 < age) (hmbp : 0 < mbp) :
    calculateEpwv age mbp
      = max 0 (0.587 - 0.402 * age + 0.00456 * age ^ 2
          - 0.00002621 * age ^ 2 * mbp + 0.003176 * age * mbp - 0.01832 * mbp)
    ∧ calculateEpwv 1 30 = 0 := by
  constructor
  · unfold calculateEpwv
    ring_nf
  · norm_num [calculateEpwv]

/-- Witness for C1: the formula theorem applied at age 50, MAP 93.3. -/
theorem calculateEpwv_formula_witness :
    (0:ℚ) < 50 ∧ (0:ℚ) < 933/10
    ∧ (calculateEpwv 50 (933/10)
        = max 0 (0.587 - 0.402 * 50 + 0.00456 * 50 ^ 2
            - 0.00002621 * 50 ^ 2 * (933/10) + 0.003176 * 50 * (933/10)
            - 0.01832 * (933/10))
       ∧ calculateEpwv 1 30 = 0) :=
  ⟨by norm_num, by norm_num,
    calculateEpwv_formula 50 (933/10) (by norm_num) (by norm_num)⟩

/-- C2: the risk category depends on the ePWV value alone (identical for
any two ages), with thresholds `epwv < 8 → Low`, `8 ≤ epwv < 12 → Medium`,
`12 ≤ epwv → High`; in particular 7.99 → Low, 8 → Medium, 11.99 → Medium,
12 → High. -/
theorem getRiskCategory_thresholds (e a b : ℚ) :
    getRiskCategory e a = getRiskCategory e b
    ∧ (getRiskCategory e a = "Low" ↔ e < 8)
    ∧ (getRiskCategory e a = "Medium" ↔ 8 ≤ e ∧ e < 12)
    ∧ (getRiskCategory e a = "High" ↔ 12 ≤ e)
    ∧ getRiskCategory (799/100) 50 = "Low"
    ∧ getRiskCategory 8 50 = "Medium"
    ∧ getRiskCategory (1199/100) 50 = "Medium"
    ∧ getRiskCategory 12 50 = "High" :=
  ⟨rfl, getRiskCategory_eq_low_iff e a, getRiskCategory_eq_medium_iff e a,
    getRiskCategory_eq_high_iff e a,
    (getRiskCategory_eq_low_iff _ _).mpr (by norm_num),
    (getRiskCategory_eq_medium_iff _ _).mpr (by norm_num),
    (getRiskCategory_eq_medium_iff _ _).mpr (by norm_num),
    (getRiskCategory_eq_high_iff _ _).mpr (by norm_num)⟩

/-- C3: the confidence band is Low exactly when age < 18 or age > 90 or
MAP < 60 or MAP > 120; High exactly when age ∈ [25,80] and MAP ∈ [70,110];
Moderate exactly in between; in particular age 17 gives Low for any MAP,
(18, 60) gives Moderate, (30, 90) gives High. -/
theorem getConfidence_bands (a m : ℚ) :
    (getConfidence a m = "Low" ↔ (a < 18 ∨ a > 90 ∨ m < 60 ∨ m > 120))
    ∧ (getConfidence a m = "High" ↔ (25 ≤ a ∧ a ≤ 80 ∧ 70 ≤ m ∧ m ≤ 110))
    ∧ (getConfidence a m = "Moderate"
        ↔ ((18 ≤ a ∧ a ≤ 90 ∧ 60 ≤ m ∧ m ≤ 120)
            ∧ ¬ (25 ≤ a ∧ a ≤ 80 ∧ 70 ≤ m ∧ m ≤ 110)))
    ∧ getConfidence 17 m = "Low"
    ∧ getConfidence 18 60 = "Moderate"
    ∧ getConfidence 30 90 = "High" :=
  ⟨getConfidence_eq_low_iff a m, getConfidence_eq_high_iff a m,
    getConfidence_eq_moderate_iff a m,
    (getConfidence_eq_low_iff 17 m).mpr (Or.inl (by norm_num)),
    by decide, by decide⟩

/-- C4 counterexample: the claim says a negative argument makes the MAP
calculator return undefined, but JS truthiness lets negative numbers
through the `if (sys && dia)` guard: at systolic −120, diastolic −80 the
code computes a MAP of −93.3 instead of returning null. -/
theorem getMeanBP_negative_counterexample :
    getMeanBP (some (-120)) (some (-80)) = some (-933/10)
    ∧ getMeanBP (some (-120)) (some (-80)) ≠ none := by
  constructor
  · norm_num [getMeanBP, roundTo1, round_eq]
  · simp [getMeanBP]

/-- C4 (amended): the MAP calculator returns undefined exactly when either
argument is absent/non-numeric (NaN) or zero — the falsy numbers — and
computes a value whenever both arguments are nonzero numbers, negative
ones included. -/
theorem getMeanBP_falsy_guard (sys dia : Option ℚ) :
    (getMeanBP sys dia = none
      ↔ (sys = none ∨ dia = none ∨ sys = some 0 ∨ dia = some 0))
    ∧ (∀ s d : ℚ, s ≠ 0 → d ≠ 0 →
        getMeanBP (some s) (some d) = some (roundTo1 ((s + 2 * d) / 3))) := by
  constructor
  · rcases sys with _ | s <;> rcases dia with _ | d <;> simp [getMeanBP] <;> tauto
  · intro s d hs hd
    simp [getMeanBP, hs, hd]

/-- C5 counterexample: the claim says the High category returns "the three
fixed High recommendations", but the recommendation table for "High" has
four entries. -/
theorem getRecommendations_high_counterexample :
    (getRecommendations "High").length = 4
    ∧ (getRecommendations "High").length ≠ 3 := by
  constructor
  · rfl
  · decide

/-- C5 (amended): in the end-to-end scenario with vitals systolic 140,
diastolic 90, age 67, the MAP is 106.7; whenever the computed ePWV is ≥ 12
the visit is classified High, and for the High category the classifier
returns the four fixed High recommendations in the documented order. -/
theorem endToEnd_high_scenario (e a : ℚ) (h : 12 ≤ e) :
    getMeanBP (some 140) (some 90) = some (1067/10)
    ∧ getRiskCategory e a = "High"
    ∧ getRecommendations "High"
        = ["Clinical evaluation recommended",
           "Comprehensive cardiovascular assessment",
           "Consider specialist referral",
           "Immediate lifestyle interventions"] :=
  ⟨by norm_num [getMeanBP, roundTo1, round_eq],
   (getRiskCategory_eq_high_iff e a).mpr h,
   rfl⟩

/-- Witness for C5: the scenario theorem applied at ePWV 12, age 67. -/
theorem endToEnd_high_scenario_witness :
    (12:ℚ) ≤ 12
    ∧ (getMeanBP (some 140) (some 90) = some (1067/10)
       ∧ getRiskCategory 12 67 = "High"
       ∧ getRecommendations "High"
           = ["Clinical evaluation recommended",
              "Comprehensive cardiovascular assessment",
              "Consider specialist referral",
              "Immediate lifestyle interventions"]) :=
  ⟨le_refl 12, endToEnd_high_scenario 12 67 (le_refl 12)⟩

/-- C6: for positive systolic and diastolic pressures, both the visit
MAP displayed by the form (`getMeanBP`) and the `mean_bp` column persisted by
`createVisit` equal `(systolic + 2·diastolic)/3` rounded to one decimal;
in particular MAP(120, 80) = 93.3. -/
theorem meanBP_formula_both_sites (sys dia : ℚ) (h1 : 0 < sys) (h2 : 0 < dia) :
    getMeanBP (some sys) (some dia) = some (roundTo1 ((sys + 2 * dia) / 3))
    ∧ createVisitMeanBp (some sys) (some dia) = some (roundTo1 ((sys + 2 * dia) / 3))
    ∧ getMeanBP (some 120) (some 80) = some (933/10) := by
  refine ⟨?_, ?_, ?_⟩
  · simp [getMeanBP, ne_of_gt h1, ne_of_gt h2]
  · simp [createVisitMeanBp, ne_of_gt h1, ne_of_gt h2]
  · norm_num [getMeanBP, roundTo1, round_eq]

/-- Witness for C6: the formula theorem applied at systolic 120,
diastolic 80. -/
theorem meanBP_formula_both_sites_witness :
    (0:ℚ) < 120 ∧ (0:ℚ) < 80
    ∧ (getMeanBP (some 120) (some 80) = some (roundTo1 ((120 + 2 * 80) / 3))
       ∧ createVisitMeanBp (some 120) (some 80) = some (roundTo1 ((120 + 2 * 80) / 3))
       ∧ getMeanBP (some 120) (some 80) = some (933/10)) :=
  ⟨by norm_num, by norm_num,
    meanBP_formula_both_sites 120 80 (by norm_num) (by norm_num)⟩

lemma isPrefixOfChars_iff (p s : List Char) :
    isPrefixOfChars p s = true ↔ p <+: s := by
  induction p generalizing s with
  | nil => simp [isPrefixOfChars]
  | cons c cs ih =>
    cases s with
    | nil => simp [isPrefixOfChars]
    | cons d ds => simp [isPrefixOfChars, ih, List.cons_prefix_cons]

lemma handleGatewayResponse_eq_rate_iff (status : ℕ) (tc : Bool) :
    handleGatewayResponse status tc
        = .errorReply 429 "Rate limits exceeded, please try again later."
      ↔ status = 429 := by
  unfold handleGatewayResponse
  by_cases hok : responseOk status
  · rw [if_neg (not_not_intro hok)]
    refine iff_of_false ?_ (fun hc => by subst hc; exact absurd hok (by unfold responseOk; omega))
    cases tc with
    | false => rw [if_neg (by decide)]; decide
    | true => rw [if_pos rfl]; decide
  · rw [if_pos hok]
    by_cases h429 : status = 429
    · rw [if_pos h429]; exact iff_of_true rfl h429
    · rw [if_neg h429]
      by_cases h402 : status = 402
      · rw [if_pos h402]; exact iff_of_false (by decide) h429
      · rw [if_neg h402]; exact iff_of_false (by decide) h429

lemma handleGatewayResponse_eq_payment_iff (status : ℕ) (tc : Bool) :
    handleGatewayResponse status tc
        = .errorReply 402 "Payment required, please add funds to your Lovable AI workspace."
      ↔ status = 402 := by
  unfold handleGatewayResponse
  by_cases hok : responseOk status
  · rw [if_neg (not_not_intro hok)]
    refine iff_of_false ?_ (fun hc => by subst hc; exact absurd hok (by unfold responseOk; omega))
    cases tc with
    | false => rw [if_neg (by decide)]; decide
    | true => rw [if_pos rfl]; decide
  · rw [if_pos hok]
    by_cases h429 : status = 429
    · rw [if_pos h429]
      exact iff_of_false (by decide) (fun hc => by omega)
    · rw [if_neg h429]
      by_cases h402 : status = 402
      · rw [if_pos h402]; exact iff_of_true rfl h402
      · rw [if_neg h402]; exact iff_of_false (by decide) h402

lemma handleGatewayResponse_eq_gateway_iff (status : ℕ) (tc : Bool) :
    handleGatewayResponse status tc = .errorReply 500 "AI gateway error"
      ↔ (¬ responseOk status ∧ status ≠ 429 ∧ status ≠ 402) := by
  unfold handleGatewayResponse
  by_cases hok : responseOk status
  · rw [if_neg (not_not_intro hok)]
    refine iff_of_false ?_ (fun hc => hc.1 hok)
    cases tc with
    | false => rw [if_neg (by decide)]; decide
    | true => rw [if_pos rfl]; decide
  · rw [if_pos hok]
    by_cases h429 : status = 429
    · rw [if_pos h429]; exact iff_of_false (by decide) (fun hc => hc.2.1 h429)
    · rw [if_neg h429]
      by_cases h402 : status = 402
      · rw [if_pos h402]; exact iff_of_false (by decide) (fun hc => hc.2.2 h402)
      · rw [if_neg h402]; exact iff_of_true rfl ⟨hok, h429, h402⟩

lemma handleGatewayResponse_eq_noToolCall_iff (status : ℕ) (tc : Bool) :
    handleGatewayResponse status tc = .errorReply 500 "No tool call returned from AI"
      ↔ (responseOk status ∧ tc = false) := by
  unfold handleGatewayResponse
  by_cases hok : responseOk status
  · rw [if_neg (not_not_intro hok)]
    cases tc with
    | false =>
      rw [if_neg (by decide)]
      exact iff_of_true rfl ⟨hok, rfl⟩
    | true =>
      rw [if_pos rfl]
      exact iff_of_false (by decide) (fun hc => Bool.noConfusion hc.2)
  · rw [if_pos hok]
    by_cases h429 : status = 429
    · rw [if_pos h429]; exact iff_of_false (by decide) (fun hc => hok hc.1)
    · rw [if_neg h429]
      by_cases h402 : status = 402
      · rw [if_pos h402]; exact iff_of_false (by decide) (fun hc => hok hc.1)
      · rw [if_neg h402]; exact iff_of_false (by decide) (fun hc => hok hc.1)

lemma handleGatewayResponse_eq_success_iff (status : ℕ) (tc : Bool) :
    handleGatewayResponse status tc = .success
      ↔ (responseOk status ∧ tc = true) := by
  unfold handleGatewayResponse
  by_cases hok : responseOk status
  · rw [if_neg (not_not_intro hok)]
    cases tc with
    | false =>
      rw [if_neg (by decide)]
      exact iff_of_false (by decide) (fun hc => Bool.noConfusion hc.2)
    | true =>
      rw [if_pos rfl]
      exact iff_of_true rfl ⟨hok, rfl⟩
  · rw [if_pos hok]
    by_cases h429 : status = 429
    · rw [if_pos h429]; exact iff_of_false (by decide) (fun hc => hok hc.1)
    · rw [if_neg h429]
      by_cases h402 : status = 402
      · rw [if_pos h402]; exact iff_of_false (by decide) (fun hc => hok hc.1)
      · rw [if_neg h402]; exact iff_of_false (by decide) (fun hc => hok hc.1)

/-- C7 counterexample: the claim says an image with either dimension above
4096 is rejected with the too-large reason, but the code checks the
minimum first: a 300×5000 image (height above 4096, width below 512) is
rejected with the too-small reason, not the too-large one. -/
theorem validateRetinalImage_overlap_counterexample :
    (validateRetinalImage (.decoded 300 5000)).reason
        = some "Image too small. Minimum size is 512x512px"
    ∧ (validateRetinalImage (.decoded 300 5000)).reason
        ≠ some "Image too large. Maximum size is 4096x4096px" := by
  constructor
  · rfl
  · decide

/-- C7 (amended): the validator accepts a decoded image exactly when both
dimensions are within [512, 4096]; an image with either dimension below
512 is rejected with the too-small reason, one with either dimension above
4096 — and none below 512, since the minimum check runs first and takes
priority — with the too-large reason; both rejections carry the decoded
dimensions (as does acceptance), and a decode failure gets the distinct
corrupted-file reason.  A 400×400 image is rejected too-small with
dimensions (400, 400), a 5000×5000 image is rejected too-large, and a
1024×1024 image passes. -/
theorem validateRetinalImage_dimension_gate (w h : ℕ) :
    ((validateRetinalImage (.decoded w h)).isValid = true
      ↔ (512 ≤ w ∧ w ≤ 4096 ∧ 512 ≤ h ∧ h ≤ 4096))
    ∧ ((validateRetinalImage (.decoded w h)).reason
        = some "Image too small. Minimum size is 512x512px"
      ↔ (w < 512 ∨ h < 512))
    ∧ ((validateRetinalImage (.decoded w h)).reason
        = some "Image too large. Maximum size is 4096x4096px"
      ↔ (512 ≤ w ∧ 512 ≤ h ∧ (4096 < w ∨ 4096 < h)))
    ∧ (validateRetinalImage (.decoded w h)).dimensions = some (w, h)
    ∧ validateRetinalImage .failed
        = ⟨false, some "Failed to load image. File may be corrupted.", none⟩
    ∧ validateRetinalImage (.decoded 400 400)
        = ⟨false, some "Image too small. Minimum size is 512x512px", some (400, 400)⟩
    ∧ validateRetinalImage (.decoded 5000 5000)
        = ⟨false, some "Image too large. Maximum size is 4096x4096px", some (5000, 5000)⟩
    ∧ validateRetinalImage (.decoded 1024 1024) = ⟨true, none, some (1024, 1024)⟩ := by
  refine ⟨?_, ?_, ?_, ?_, rfl, rfl, rfl, rfl⟩
  · simp only [validateRetinalImage]
    split_ifs with h1 h2
    · constructor
      · intro hc; cases hc
      · rintro ⟨c1, c2, c3, c4⟩; rcases h1 with hx | hx <;> omega
    · constructor
      · intro hc; cases hc
      · rintro ⟨c1, c2, c3, c4⟩; rcases h2 with hx | hx <;> omega
    · push_neg at h1 h2
      exact iff_of_true rfl ⟨h1.1, h2.1, h1.2, h2.2⟩
  · simp only [validateRetinalImage]
    split_ifs with h1 h2
    · exact iff_of_true rfl h1
    · exact iff_of_false (fun hc => absurd (Option.some.inj hc) (by decide)) h1
    · exact iff_of_false (by simp) h1
  · simp only [validateRetinalImage]
    split_ifs with h1 h2
    · refine iff_of_false (fun hc => absurd (Option.some.inj hc) (by decide)) ?_
      rintro ⟨c1, c2, -⟩; rcases h1 with hx | hx <;> omega
    · push_neg at h1
      exact iff_of_true rfl ⟨h1.1, h1.2, h2⟩
    · refine iff_of_false (by simp) ?_
      rintro ⟨-, -, hc⟩; rcases hc with hx | hx <;> [exact h2 (Or.inl hx); exact h2 (Or.inr hx)]
  · simp only [validateRetinalImage]
    split_ifs <;> rfl

/-- C8: in the upload intake path, a file whose MIME type is not
JPEG/PNG is rejected with the format error, a valid-format file above the
10 MB cap is rejected with the size error, and only a file passing both
guards reaches the read stage (after which the image can be decoded for
dimensions); a GIF of any size is rejected at the format check. -/
theorem uploadImageFromFile_gates (f : UploadFile) :
    (uploadImageFromFile f
        = .rejected "Invalid file type. Please upload JPEG or PNG images."
      ↔ ¬ (f.mimeType ∈ validTypes))
    ∧ (uploadImageFromFile f = .rejected "File too large. Maximum size is 10MB."
      ↔ (f.mimeType ∈ validTypes ∧ f.size > 10 * 1024 * 1024))
    ∧ (uploadImageFromFile f = .accepted
      ↔ (f.mimeType ∈ validTypes ∧ f.size ≤ 10 * 1024 * 1024))
    ∧ (∀ n : ℕ, uploadImageFromFile ⟨"image/gif", n⟩
        = .rejected "Invalid file type. Please upload JPEG or PNG images.") := by
  refine ⟨?_, ?_, ?_, ?_⟩
  · unfold uploadImageFromFile
    by_cases h1 : f.mimeType ∈ validTypes
    · rw [if_neg (not_not_intro h1)]
      by_cases h2 : f.size > 10 * 1024 * 1024
      · rw [if_pos h2]; exact iff_of_false (by decide) (fun hc => hc h1)
      · rw [if_neg h2]; exact iff_of_false (by decide) (fun hc => hc h1)
    · rw [if_pos h1]; exact iff_of_true rfl h1
  · unfold uploadImageFromFile
    by_cases h1 : f.mimeType ∈ validTypes
    · rw [if_neg (not_not_intro h1)]
      by_cases h2 : f.size > 10 * 1024 * 1024
      · rw [if_pos h2]; exact iff_of_true rfl ⟨h1, h2⟩
      · rw [if_neg h2]; exact iff_of_false (by decide) (fun hc => h2 hc.2)
    · rw [if_pos h1]; exact iff_of_false (by decide) (fun hc => h1 hc.1)
  · unfold uploadImageFromFile
    by_cases h1 : f.mimeType ∈ validTypes
    · rw [if_neg (not_not_intro h1)]
      by_cases h2 : f.size > 10 * 1024 * 1024
      · rw [if_pos h2]; exact iff_of_false (by decide) (fun hc => absurd hc.2 (by omega))
      · rw [if_neg h2]; exact iff_of_true rfl ⟨h1, by omega⟩
    · rw [if_pos h1]; exact iff_of_false (by decide) (fun hc => h1 hc.1)
  · intro n
    unfold uploadImageFromFile
    rw [if_pos (by simp [validTypes])]

/-- C9: the handler of the single upstream gateway response maps failures
to exactly one of three distinct error conditions by HTTP status — 429 to
the rate-limit message, 402 to the payment message, any other non-2xx to
the generic gateway error — plus the distinct no-structured-result failure
when the upstream call succeeds without a tool-call payload; the four
error replies are pairwise distinct, and the handler is a function of the
one response it is given (no retry). -/
theorem handleGatewayResponse_mapping (status : ℕ) (tc : Bool) :
    (handleGatewayResponse status tc
        = .errorReply 429 "Rate limits exceeded, please try again later."
      ↔ status = 429)
    ∧ (handleGatewayResponse status tc
        = .errorReply 402 "Payment required, please add funds to your Lovable AI workspace."
      ↔ status = 402)
    ∧ (handleGatewayResponse status tc = .errorReply 500 "AI gateway error"
      ↔ (¬ responseOk status ∧ status ≠ 429 ∧ status ≠ 402))
    ∧ (handleGatewayResponse status tc
        = .errorReply 500 "No tool call returned from AI"
      ↔ (responseOk status ∧ tc = false))
    ∧ (handleGatewayResponse status tc = .success
      ↔ (responseOk status ∧ tc = true))
    ∧ ([AnalysisOutcome.errorReply 429 "Rate limits exceeded, please try again later.",
        AnalysisOutcome.errorReply 402 "Payment required, please add funds to your Lovable AI workspace.",
        AnalysisOutcome.errorReply 500 "AI gateway error",
        AnalysisOutcome.errorReply 500 "No tool call returned from AI"].Nodup) :=
  ⟨handleGatewayResponse_eq_rate_iff status tc,
   handleGatewayResponse_eq_payment_iff status tc,
   handleGatewayResponse_eq_gateway_iff status tc,
   handleGatewayResponse_eq_noToolCall_iff status tc,
   handleGatewayResponse_eq_success_iff status tc,
   by decide⟩

/-- C10: the server-side analysis function re-validates the image format:
with the API key configured, a request whose imageData does not start with
one of the three accepted data-URI prefixes is answered 400 with the
invalid-format error and never reaches the gateway call, and the gateway
is called exactly when the prefix check passes; a GIF data URI is
rejected. -/
theorem serveGate_format_gate (s : String) :
    (serveGate true s = .callGateway ↔ validateImageData s = true)
    ∧ (serveGate true s
        = .earlyReply 400 "Invalid image format. Please provide a valid JPEG or PNG image."
      ↔ validateImageData s = false)
    ∧ (validateImageData s = true
      ↔ ("data:image/jpeg;base64,".data <+: s.data
          ∨ "data:image/jpg;base64,".data <+: s.data
          ∨ "data:image/png;base64,".data <+: s.data))
    ∧ serveGate true "data:image/gif;base64,R0lGOD"
        = .earlyReply 400 "Invalid image format. Please provide a valid JPEG or PNG image."
    ∧ (ServePhase.earlyReply 400
          "Invalid image format. Please provide a valid JPEG or PNG image."
        ≠ ServePhase.callGateway) := by
  refine ⟨?_, ?_, ?_, ?_, by decide⟩
  · unfold serveGate
    rw [if_neg (by simp)]
    by_cases hv : validateImageData s = true
    · rw [if_neg (not_not_intro hv)]
      exact iff_of_true rfl hv
    · rw [if_pos hv]
      exact iff_of_false (by decide) hv
  · unfold serveGate
    rw [if_neg (by simp)]
    by_cases hv : validateImageData s = true
    · rw [if_neg (not_not_intro hv)]
      refine iff_of_false (by decide) (fun hc => ?_)
      rw [hv] at hc; cases hc
    · rw [if_pos hv]
      exact iff_of_true rfl (by simpa using hv)
  · simp only [validateImageData, Bool.or_eq_true, isPrefixOfChars_iff]
    tauto
  · unfold serveGate
    rw [if_neg (by simp), if_pos (by decide)]

end NeuroLens
